import Mathlib

/-!
Verification of the BLE relay control plane of the petkitaio client
(`petkitaio/petkit_client.py`, `petkitaio/constants.py`).

The definitions below are shallow embeddings of the corresponding Python
functions: pure byte/codec functions become Lean functions over `Nat`/`Int`
lists, the recursive retry helpers become fuel-bounded recursion with the same
attempt guard, and the mutable per-appliance dictionaries become explicit
state records.  Definitions whose doc comment starts with `Modelled from the
spec:` embed behaviour that the repository does not contain under `src/`
(decoders that the spec postulates as inverses of the encoders in the source).
-/

/-- The fixed BLE frame header bytes (`BLE_HEADER = [-6, -4, -3]` in
`constants.py`). -/
def BLE_HEADER : List Int := [-6, -4, -3]

/-- The closed enumeration of water-fountain commands (`W5Command` in
`constants.py`). -/
inductive W5Command where
  | PAUSE
  | NORMAL_TO_PAUSE
  | SMART_TO_PAUSE
  | NORMAL
  | SMART
  | RESET_FILTER
  | DO_NOT_DISTURB
  | DO_NOT_DISTURB_OFF
  | FIRST_BLE_CMND
  | SECOND_BLE_CMND
  | LIGHT_LOW
  | LIGHT_MEDIUM
  | LIGHT_HIGH
  | LIGHT_ON
  | LIGHT_OFF
deriving DecidableEq

/-- `W5_DND_COMMANDS` from `constants.py`. -/
def W5_DND_COMMANDS : List W5Command := [.DO_NOT_DISTURB, .DO_NOT_DISTURB_OFF]

/-- `W5_LIGHT_BRIGHTNESS` from `constants.py`. -/
def W5_LIGHT_BRIGHTNESS : List W5Command := [.LIGHT_LOW, .LIGHT_MEDIUM, .LIGHT_HIGH]

/-- `W5_LIGHT_POWER` from `constants.py`. -/
def W5_LIGHT_POWER : List W5Command := [.LIGHT_ON, .LIGHT_OFF]

/-- `W5_SETTINGS_COMMANDS` from `constants.py`. -/
def W5_SETTINGS_COMMANDS : List W5Command :=
  [.DO_NOT_DISTURB, .DO_NOT_DISTURB_OFF, .LIGHT_LOW, .LIGHT_MEDIUM, .LIGHT_HIGH,
   .LIGHT_ON, .LIGHT_OFF]

/-- The settings snapshot fields of a W5 fountain read by
`w5_command_data_creator` (`device.data['settings'][...]`). -/
structure W5Settings where
  smartWorkingTime : Nat
  smartSleepTime : Nat
  lampRingSwitch : Nat
  lampRingBrightness : Nat
  lampRingLightUpTime : Nat
  lampRingGoOutTime : Nat
  noDisturbingSwitch : Nat
  noDisturbingStartTime : Nat
  noDisturbingEndTime : Nat
deriving DecidableEq

/-- `short_to_byte_list` (`petkit_client.py:926-936`): the loop body appends
`(input >> (16 - i2 * 8)) & 255` for `i2 = 1, 2`. -/
def short_to_byte_list (input : Nat) : List Nat :=
  (List.range 2).map (fun i => (input >>> (16 - (i + 1) * 8)) &&& 255)

/-- `w5_command_data_creator` (`petkit_client.py:859-909`): the nine-field
settings payload for settings-class commands, empty for everything else. -/
def w5_command_data_creator (device : W5Settings) (command : W5Command)
    (setting : List Nat) : List Nat :=
  let data : List Nat := []
  if command ∈ W5_SETTINGS_COMMANDS then
    let light_up := short_to_byte_list device.lampRingLightUpTime
    let light_out := short_to_byte_list device.lampRingGoOutTime
    let disturb_start := short_to_byte_list device.noDisturbingStartTime
    let disturb_end := short_to_byte_list device.noDisturbingEndTime
    let data := if command ∈ W5_LIGHT_POWER then
        [device.smartWorkingTime] ++ [device.smartSleepTime] ++ setting ++
          [device.lampRingBrightness] ++ light_up ++ light_out ++
          [device.noDisturbingSwitch] ++ disturb_start ++ disturb_end
      else data
    let data := if command ∈ W5_LIGHT_BRIGHTNESS then
        [device.smartWorkingTime] ++ [device.smartSleepTime] ++
          [device.lampRingSwitch] ++ setting ++ light_up ++ light_out ++
          [device.noDisturbingSwitch] ++ disturb_start ++ disturb_end
      else data
    let data := if command ∈ W5_DND_COMMANDS then
        [device.smartWorkingTime] ++ [device.smartSleepTime] ++
          [device.lampRingSwitch] ++ [device.lampRingBrightness] ++
          light_up ++ light_out ++ setting ++ disturb_start ++ disturb_end
      else data
    data
  else data

/-- `create_ble_byte_list` (`petkit_client.py:911-924`): header, opcode,
literal `1`, sequence, low length byte `len & 255`, high length byte
`len >> 8`, payload, terminator `-5`. -/
def create_ble_byte_list (command : Int) (ble_sequence : Nat)
    (data_list : List Nat) : List Int :=
  BLE_HEADER ++ [command] ++ [(1 : Int)] ++ [(ble_sequence : Int)] ++
    [((data_list.length &&& 255 : Nat) : Int)] ++
    [((data_list.length >>> 8 : Nat) : Int)] ++
    data_list.map (fun x => (x : Int)) ++ [(-5 : Int)]

/-- The byte folding `bytearray([x % 256 for x in byte_list])` performed in
`create_ble_data` (`petkit_client.py:854`): Python `%` on a positive modulus
is the nonnegative residue, i.e. `Int.emod`. -/
def fold_byte (x : Int) : Nat := (x % 256).toNat

/-- The transmitted byte array of `create_ble_data`
(`petkit_client.py:854`). -/
def to_byte_array (byte_list : List Int) : List Nat := byte_list.map fold_byte

/-- Modelled from the spec: `decode_short` is not present under `src/`; §8
gives the decoding as `byte0 * 256 + byte1`. -/
def decode_short (b : List Nat) : Nat := b.getD 0 0 * 256 + b.getD 1 0

/-- Modelled from the spec: the §4.2 `build_frame` contract — header bytes,
opcode byte, literal `1`, sequence, `len(payload) & 0xFF`,
`(len(payload) >> 8) & 0xFF`, payload elements, terminator `-5`, every
element folded mod 256. -/
def build_frame_spec (opcode : Int) (sequence : Nat) (payload : List Nat) :
    List Nat :=
  (([-6, -4, -3] : List Int) ++ [opcode] ++ [(1 : Int)] ++ [(sequence : Int)] ++
    [((payload.length &&& 255 : Nat) : Int)] ++
    [(((payload.length >>> 8) &&& 255 : Nat) : Int)] ++
    payload.map (fun x => (x : Int)) ++ [(-5 : Int)]).map fold_byte

/-- Masking with `255` is reduction mod `256`. -/
theorem and_255_eq_mod (n : Nat) : n &&& 255 = n % 256 := by
  simpa using Nat.and_pow_two_sub_one_eq_mod n 8

/-- Shifting right by `8` is division by `256`. -/
theorem shiftRight_8_eq_div (n : Nat) : n >>> 8 = n / 256 := by
  simpa using Nat.shiftRight_eq_div_pow n 8

/-- Folding a nonnegative value is reduction mod 256. -/
theorem fold_byte_natCast (n : Nat) : fold_byte (n : Int) = n % 256 := by
  unfold fold_byte
  have : ((n : Int) % 256) = ((n % 256 : Nat) : Int) := by
    push_cast
    rfl
  rw [this]
  exact Int.toNat_natCast _

/-- Every folded byte lands in `0..255`. -/
theorem fold_byte_lt (x : Int) : fold_byte x < 256 := by
  unfold fold_byte
  have h1 : 0 ≤ x % 256 := Int.emod_nonneg x (by norm_num)
  have h2 : x % 256 < 256 := Int.emod_lt_of_pos x (by norm_num)
  omega

/-- **C9**: the short encoder outputs exactly `[(value >> 8) & 0xFF,
value & 0xFF]` (big-endian), and `byte0 * 256 + byte1` recovers every 16-bit
value (round-trip identity on u16). -/
theorem C9_short_encoder_roundtrip (value : Nat) (h : value < 65536) :
    short_to_byte_list value = [(value >>> 8) &&& 255, value &&& 255] ∧
    decode_short (short_to_byte_list value) = value := by
  have henc : short_to_byte_list value =
      [(value >>> 8) &&& 255, value &&& 255] := by
    simp [short_to_byte_list, List.range_succ]
  refine ⟨henc, ?_⟩
  rw [henc]
  unfold decode_short
  simp only [List.getD, List.get?_eq_getElem?, List.getElem?_cons_zero,
    List.getElem?_cons_succ, Option.getD_some]
  rw [and_255_eq_mod, and_255_eq_mod, shiftRight_8_eq_div]
  omega

/-- Witness for C9 at the concrete value `1280`. -/
theorem C9_short_encoder_roundtrip_witness :
    short_to_byte_list 1280 = [(1280 >>> 8) &&& 255, 1280 &&& 255] ∧
    decode_short (short_to_byte_list 1280) = 1280 :=
  C9_short_encoder_roundtrip 1280 (by decide)

/-- **C5**: every settings-class payload is the nine fields in the fixed
order, with exactly the one single-byte field selected by the command class
replaced by the new value and all other fields copied from the snapshot; the
Medium-brightness scenario yields `[10,20,1,2,5,0,10,0,0,0,0,0,0]`. -/
theorem C5_settings_payload (device : W5Settings) (new_value : Nat)
    (command : W5Command) (h : command ∈ W5_SETTINGS_COMMANDS) :
    w5_command_data_creator device command [new_value] =
      [device.smartWorkingTime, device.smartSleepTime,
        if command ∈ W5_LIGHT_POWER then new_value else device.lampRingSwitch,
        if command ∈ W5_LIGHT_BRIGHTNESS then new_value
          else device.lampRingBrightness] ++
      short_to_byte_list device.lampRingLightUpTime ++
      short_to_byte_list device.lampRingGoOutTime ++
      [if command ∈ W5_DND_COMMANDS then new_value
        else device.noDisturbingSwitch] ++
      short_to_byte_list device.noDisturbingStartTime ++
      short_to_byte_list device.noDisturbingEndTime ∧
    w5_command_data_creator ⟨10, 20, 1, 1, 1280, 2560, 0, 0, 0⟩
        W5Command.LIGHT_MEDIUM [2] = [10, 20, 1, 2, 5, 0, 10, 0, 0, 0, 0, 0, 0] := by
  constructor
  · cases command <;>
      simp_all [w5_command_data_creator, W5_SETTINGS_COMMANDS, W5_LIGHT_POWER,
        W5_LIGHT_BRIGHTNESS, W5_DND_COMMANDS]
  · decide

/-- Witness for C5: the Medium-brightness scenario instance. -/
theorem C5_settings_payload_witness :
    w5_command_data_creator ⟨10, 20, 1, 1, 1280, 2560, 0, 0, 0⟩
        W5Command.LIGHT_MEDIUM [2] = [10, 20, 1, 2, 5, 0, 10, 0, 0, 0, 0, 0, 0] :=
  (C5_settings_payload ⟨10, 20, 1, 1, 1280, 2560, 0, 0, 0⟩ 2
    W5Command.LIGHT_MEDIUM (by decide)).2

/-- **C6**: for every opcode, sequence and payload the transmitted byte array
is exactly the spec §4.2 layout (header, opcode, `1`, sequence,
`len & 0xFF`, `(len >> 8) & 0xFF`, payload, terminator `-5`), all folded mod
256 into `0..255`. -/
theorem C6_frame_layout (opcode : Int) (sequence : Nat) (payload : List Nat) :
    to_byte_array (create_ble_byte_list opcode sequence payload) =
      build_frame_spec opcode sequence payload ∧
    (to_byte_array (create_ble_byte_list opcode sequence payload)).all
      (fun b => b < 256) = true := by
  constructor
  · have key : fold_byte ((payload.length >>> 8 : Nat) : Int) =
        fold_byte (((payload.length >>> 8) &&& 255 : Nat) : Int) := by
      rw [fold_byte_natCast, fold_byte_natCast, and_255_eq_mod]
      omega
    simp [to_byte_array, create_ble_byte_list, build_frame_spec, BLE_HEADER, key]
  · simp only [List.all_eq_true, to_byte_array, List.mem_map]
    rintro b ⟨x, -, rfl⟩
    simpa using fold_byte_lt x

/-- Fuel-bounded embedding of the recursive retry body shared by
`start_ble_connection` and `poll_ble_connection`
(`petkit_client.py:725-749, 751-775`).  The fuel is `5 - attempt`, exactly
the number of recursion levels before the `attempt > 4` guard fires, so the
`fuel = 0` result coincides with the guard result and the embedding agrees
with the unbounded Python recursion at every attempt number.  The first
component is the Python return value: `some true` for the successful
`return`, `some false` for the budget-exhausted `return`, and `none` for the
implicit `return None` on the failure path — the source drops the result of
its recursive retry call.  The second component counts the network posts
issued. -/
def ble_retry_go (failed : Nat → Prop) [DecidablePred failed]
    (fuel attempt : Nat) : Option Bool × Nat :=
  match fuel with
  | 0 => (some false, 0)
  | fuel + 1 =>
    if attempt > 4 then (some false, 0)
    else if failed attempt then
      let r := ble_retry_go failed fuel (attempt + 1)
      (none, r.2 + 1)
    else (some true, 1)

/-- `start_ble_connection` (`petkit_client.py:725-749`): attempt `attempt`
fails when the connect response has `state != 1`. -/
def start_ble_connection (states : Nat → Int) (ble_connect_attempt : Nat) :
    Option Bool × Nat :=
  ble_retry_go (fun a => states a ≠ 1) (5 - ble_connect_attempt)
    ble_connect_attempt

/-- `poll_ble_connection` (`petkit_client.py:751-775`): attempt `attempt`
fails when the poll response has `result != 0`. -/
def poll_ble_connection (results : Nat → Int) (ble_poll_attempt : Nat) :
    Option Bool × Nat :=
  ble_retry_go (fun a => results a ≠ 0) (5 - ble_poll_attempt)
    ble_poll_attempt

/-- Python truthiness of the retry helpers' return value: only `True` is
truthy; `False` and `None` (the implicit fall-through return) are falsy. -/
def truthy : Option Bool → Bool
  | some true => true
  | _ => false

/-- The network posts of a command operation. -/
inductive Call where
  | connect
  | poll
  | sendFrame
  | disconnect
deriving DecidableEq

/-- The exceptions `control_water_fountain` can raise. -/
inductive CtrlError where
  | petkitError
  | bluetoothError
deriving DecidableEq

/-- The fields of a `W5Fountain` read by `control_water_fountain`. -/
structure WFData where
  group_relay : Bool
  powerStatus : Int
  mode : Int
  settings : W5Settings
deriving DecidableEq

/-- Outcome of a command operation: the network posts issued in order, the
final `ble_sequence`, and the exception raised, if any. -/
structure CtrlResult where
  calls : List Call
  ble_sequence : Nat
  error : Option CtrlError
deriving DecidableEq

/-- `control_water_fountain` (`petkit_client.py:949-1009`).  The payload
construction (`create_ble_data`) is pure, issues no network call and leaves
`ble_sequence` unchanged, so only the precondition checks, the
connect/poll/send/disconnect posts, the sequence reset and the raised
exceptions are tracked here.  `connStates a` / `pollResults a` are the remote
`state` / `result` values returned on attempt `a`. -/
def control_water_fountain (wf : WFData) (command : W5Command)
    (ble_sequence : Nat) (connStates pollResults : Nat → Int) : CtrlResult :=
  if ¬ wf.group_relay then ⟨[], ble_sequence, some .petkitError⟩
  else if command = .PAUSE ∧ wf.powerStatus = 0 then
    ⟨[], ble_sequence, some .petkitError⟩
  else if command ∈ W5_LIGHT_BRIGHTNESS ∧ wf.settings.lampRingSwitch ≠ 1 then
    ⟨[], ble_sequence, some .petkitError⟩
  else
    let conn := start_ble_connection connStates 1
    let connCalls : List Call := List.replicate conn.2 .connect
    if truthy conn.1 then
      let poll := poll_ble_connection pollResults 1
      let pollCalls : List Call := List.replicate poll.2 .poll
      if truthy poll.1 then
        ⟨connCalls ++ pollCalls ++ [.sendFrame, .disconnect], 0, none⟩
      else ⟨connCalls ++ pollCalls, ble_sequence, some .bluetoothError⟩
    else ⟨connCalls, ble_sequence, some .bluetoothError⟩

/-- The `can_poll` computation of `_handle_water_fountain`
(`petkit_client.py:316-327`): `True` when the appliance was never
successfully polled, otherwise exactly when at least 420 seconds have
elapsed since the last successful poll. -/
def can_poll (last_ble_poll : Option Int) (current_dt : Int) : Bool :=
  match last_ble_poll with
  | none => true
  | some last => decide (current_dt - last ≥ 420)

/-- Which data path a refresh takes. -/
inductive RefreshPath where
  | bleRelay
  | plainFetch
deriving DecidableEq

/-- The path decision of `_handle_water_fountain`
(`petkit_client.py:309-328` and the fall-back branches at `449-483`): BLE
relay activity is attempted only when the group has a relay, relay use is
enabled and the cool-down has elapsed; otherwise the code goes straight to
the plain `_post` data fetch. -/
def refresh_path (has_relay use_ble_relay : Bool) (last_ble_poll : Option Int)
    (current_dt : Int) : RefreshPath :=
  if has_relay && use_ble_relay then
    if can_poll last_ble_poll current_dt then .bleRelay else .plainFetch
  else .plainFetch

/-- The `ble_sequence` updates of `initial_ble_commands`
(`petkit_client.py:778-802`): one increment after each of the two handshake
frames. -/
def initial_ble_commands_seq (ble_sequence : Nat) : Nat :=
  (ble_sequence + 1) + 1

/-- The `ble_sequence` updates along the poll-success branch of a
data-refresh (`petkit_client.py:383-412`): reset to 0 if nonzero, increment
once after connect/poll succeed, then the two handshake increments of
`initial_ble_commands`; the final data re-fetch and the disconnect post do
not touch the counter, so this is the counter at the end of the completed
refresh cycle. -/
def refresh_cycle_seq (ble_sequence : Nat) : Nat :=
  let s := if ble_sequence ≠ 0 then 0 else ble_sequence
  let s := s + 1
  initial_ble_commands_seq s

/-- The per-appliance manual-pause dictionaries of the client
(`manually_paused`, `manual_pause_end` in `petkit_client.py:95-96`); `none`
models an absent dictionary key, `some none` a key explicitly set to
`None`. -/
structure PauseTracker where
  manually_paused : Int → Option Bool
  manual_pause_end : Int → Option (Option Int)

/-- The `PAUSE_CLEAN` bookkeeping of `control_litter_box`
(`petkit_client.py:1049-1052` for the `t4` block, `1094-1097` for the `t3`
block): set `manually_paused[id] = True` and
`manual_pause_end[id] = now + 660` seconds. -/
def pause_clean_update (st : PauseTracker) (id now : Int) : PauseTracker :=
  ⟨fun i => if i = id then some true else st.manually_paused i,
   fun i => if i = id then some (some (now + 660)) else st.manual_pause_end i⟩

/-- `control_litter_box` restricted to its `PAUSE_CLEAN` dictionary updates:
the `t4` block performs them before the control post, the `t3` block after
it; any other litter-box type leaves the tracker unchanged. -/
def control_litter_box_pause (st : PauseTracker) (lb_type : String)
    (id now : Int) : PauseTracker :=
  let st := if lb_type = "t4" then pause_clean_update st id now else st
  if lb_type = "t3" then pause_clean_update st id now else st

/-- `check_manual_pause_expiration` (`petkit_client.py:1124-1131`): reads
`manual_pause_end[id]` (a missing key or a `None` entry would raise in the
source, modelled as `none`); clears both entries when the recorded end time
is not in the future, else leaves the state untouched. -/
def check_manual_pause_expiration (st : PauseTracker) (id now : Int) :
    Option PauseTracker :=
  match st.manual_pause_end id with
  | some (some current_end) =>
    if current_end - now ≤ 0 then
      some ⟨fun i => if i = id then some false else st.manually_paused i,
            fun i => if i = id then some none else st.manual_pause_end i⟩
    else some st
  | _ => none

/-- An expiry check strictly before the recorded end time leaves the tracker
untouched. -/
theorem check_not_expired (st : PauseTracker) (id now e : Int)
    (hend : st.manual_pause_end id = some (some e)) (h : 0 < e - now) :
    check_manual_pause_expiration st id now = some st := by
  unfold check_manual_pause_expiration
  rw [hend]
  dsimp only
  rw [if_neg (by omega)]

/-- An expiry check at or after the recorded end time clears both fields. -/
theorem check_expired (st : PauseTracker) (id now e : Int)
    (hend : st.manual_pause_end id = some (some e)) (h : e - now ≤ 0) :
    check_manual_pause_expiration st id now =
      some ⟨fun i => if i = id then some false else st.manually_paused i,
            fun i => if i = id then some none else st.manual_pause_end i⟩ := by
  unfold check_manual_pause_expiration
  rw [hend]
  dsimp only
  rw [if_pos h]

/-- **C1 counterexample**: starting from the at-rest counter 0, a completed
data-refresh session cycle (connect → poll → handshake frames → disconnect)
ends with `ble_sequence = 3`, not 0. -/
theorem C1_counterexample : refresh_cycle_seq 0 ≠ 0 := by decide

/-- **C1 (amended)**: a completed command-operation cycle ends with
`ble_sequence = 0` — the reset happens right after the command frame is
sent, before the disconnect post — but a completed data-refresh cycle always
ends with `ble_sequence = 3`; for refreshes the counter is reset only at the
start of the frames step of the next refresh session, not on disconnect. -/
theorem C1_sequence_after_cycle (wf : WFData) (command : W5Command)
    (s : Nat) (connStates pollResults : Nat → Int)
    (hr : wf.group_relay = true)
    (hc : connStates 1 = 1) (hp : pollResults 1 = 0)
    (hcmd : ¬ (command = W5Command.PAUSE ∧ wf.powerStatus = 0))
    (hbr : ¬ (command ∈ W5_LIGHT_BRIGHTNESS ∧ wf.settings.lampRingSwitch ≠ 1)) :
    (control_water_fountain wf command s connStates pollResults).error = none ∧
    (control_water_fountain wf command s connStates pollResults).ble_sequence
      = 0 ∧
    refresh_cycle_seq s = 3 := by
  have hconn : start_ble_connection connStates 1 = (some true, 1) := by
    simp [start_ble_connection, ble_retry_go, hc]
  have hpoll : poll_ble_connection pollResults 1 = (some true, 1) := by
    simp [poll_ble_connection, ble_retry_go, hp]
  refine ⟨?_, ?_, ?_⟩
  · simp [control_water_fountain, hr, hcmd, hbr, hconn, hpoll, truthy]
  · simp [control_water_fountain, hr, hcmd, hbr, hconn, hpoll, truthy]
  · simp only [refresh_cycle_seq, initial_ble_commands_seq]
    split <;> omega

/-- Witness for C1 at concrete inputs: a Normal-mode command on a powered
fountain with first-attempt connect/poll success, and a refresh starting
from the at-rest counter. -/
theorem C1_sequence_after_cycle_witness :
    (control_water_fountain ⟨true, 1, 1, ⟨10, 20, 1, 1, 1280, 2560, 0, 0, 0⟩⟩
        W5Command.NORMAL 0 (fun _ => 1) (fun _ => 0)).error = none ∧
    (control_water_fountain ⟨true, 1, 1, ⟨10, 20, 1, 1, 1280, 2560, 0, 0, 0⟩⟩
        W5Command.NORMAL 0 (fun _ => 1) (fun _ => 0)).ble_sequence = 0 ∧
    refresh_cycle_seq 0 = 3 :=
  C1_sequence_after_cycle _ _ _ _ _ rfl rfl rfl (by decide) (by decide)

/-- **C2**: evaluation at the failing input.  Connect attempt 1 fails
(`state = 0`) and attempt 2 succeeds (`state = 1`): by the claim the connect
step reports success and no `BluetoothError` is raised, but
`start_ble_connection` discards the result of its recursive retry call and
falls through returning `None` after only 2 connect posts, so
`control_water_fountain` raises `BluetoothError` even though a connect
attempt succeeded within the 4-attempt budget.  The analogous input shows
the same for the poll step. -/
theorem C2_retry_success_dropped :
    (start_ble_connection (fun a => if a = 1 then 0 else 1) 1).1 = none ∧
    (start_ble_connection (fun a => if a = 1 then 0 else 1) 1).2 = 2 ∧
    (poll_ble_connection (fun a => if a = 1 then 1 else 0) 1).1 = none ∧
    (control_water_fountain ⟨true, 1, 1, ⟨10, 20, 1, 1, 1280, 2560, 0, 0, 0⟩⟩
        W5Command.NORMAL 0 (fun a => if a = 1 then 0 else 1)
        (fun _ => 0)).error = some CtrlError.bluetoothError := by decide

/-- **C3**: when the remote reports failure on every attempt, the connect
step and the poll step each issue exactly 4 network posts — never more,
never fewer — before giving up with a falsy result; the bounded retry
recursion terminates (its embedding is a total function). -/
theorem C3_retry_budget (connStates pollResults : Nat → Int)
    (hc : ∀ a, connStates a ≠ 1) (hp : ∀ a, pollResults a ≠ 0) :
    (start_ble_connection connStates 1).2 = 4 ∧
    truthy (start_ble_connection connStates 1).1 = false ∧
    (poll_ble_connection pollResults 1).2 = 4 ∧
    truthy (poll_ble_connection pollResults 1).1 = false := by
  refine ⟨?_, ?_, ?_, ?_⟩ <;>
    simp [start_ble_connection, poll_ble_connection, ble_retry_go, truthy,
      hc 1, hc 2, hc 3, hc 4, hp 1, hp 2, hp 3, hp 4]

/-- Witness for C3: remotes that always answer `state = 0` / `result = 1`. -/
theorem C3_retry_budget_witness :
    (start_ble_connection (fun _ => 0) 1).2 = 4 ∧
    truthy (start_ble_connection (fun _ => 0) 1).1 = false ∧
    (poll_ble_connection (fun _ => 1) 1).2 = 4 ∧
    truthy (poll_ble_connection (fun _ => 1) 1).1 = false :=
  C3_retry_budget (fun _ => 0) (fun _ => 1) (fun _ => by norm_num)
    (fun _ => by norm_num)

/-- **C4 counterexample**: with the last successful poll 500 seconds before
now (cool-down 420 s), the refresh is not blocked: it enters the BLE relay
path instead of falling back to the plain fetch. -/
theorem C4_counterexample :
    ¬ refresh_path true true (some 500) 1000 = RefreshPath.plainFetch := by
  decide

/-- **C4 (amended)**: a data-refresh on an appliance whose last successful
poll is 500 seconds old (≥ the 420-second cool-down) enters the BLE relay
path; it is blocked and falls back directly to the plain data fetch exactly
when fewer than 420 seconds have elapsed since the last successful poll. -/
theorem C4_cooldown_gate (last now : Int) (h : now - last < 420) :
    refresh_path true true (some last) now = RefreshPath.plainFetch ∧
    refresh_path true true (some (now - 500)) now = RefreshPath.bleRelay := by
  constructor
  · have hlt : ¬ now - last ≥ 420 := by omega
    simp [refresh_path, can_poll, hlt]
  · have hge : now - (now - 500) ≥ 420 := by omega
    simp [refresh_path, can_poll, hge]

/-- Witness for C4 at `last = 0`, `now = 100`. -/
theorem C4_cooldown_gate_witness :
    refresh_path true true (some 0) 100 = RefreshPath.plainFetch ∧
    refresh_path true true (some (100 - 500)) 100 = RefreshPath.bleRelay :=
  C4_cooldown_gate 0 100 (by norm_num)

/-- **C7**: a pause command on a litter box sets `manually_paused = true` and
`manual_pause_end = now + 660`; a subsequent expiry check at `now + 659`
leaves the pause in place, while a check at `now + 661` clears the flag and
unsets the end time. -/
theorem C7_manual_pause_window (st : PauseTracker) (lb_type : String)
    (id now : Int) (h : lb_type = "t3" ∨ lb_type = "t4") :
    (control_litter_box_pause st lb_type id now).manually_paused id =
      some true ∧
    (control_litter_box_pause st lb_type id now).manual_pause_end id =
      some (some (now + 660)) ∧
    check_manual_pause_expiration (control_litter_box_pause st lb_type id now)
      id (now + 659) = some (control_litter_box_pause st lb_type id now) ∧
    ∃ st2, check_manual_pause_expiration
        (control_litter_box_pause st lb_type id now) id (now + 661) =
          some st2 ∧
      st2.manually_paused id = some false ∧
      st2.manual_pause_end id = some none := by
  have hup : control_litter_box_pause st lb_type id now =
      pause_clean_update st id now := by
    rcases h with rfl | rfl <;> simp [control_litter_box_pause]
  rw [hup]
  have hend : (pause_clean_update st id now).manual_pause_end id =
      some (some (now + 660)) := by
    simp [pause_clean_update]
  refine ⟨by simp [pause_clean_update], hend,
    check_not_expired _ _ _ _ hend (by omega), ?_⟩
  exact ⟨_, check_expired _ _ _ _ hend (by omega),
    by simp, by simp⟩

/-- Witness for C7: a fresh tracker, litter box type `t4`, appliance 5,
`now = 1000`. -/
theorem C7_manual_pause_window_witness :
    (control_litter_box_pause ⟨fun _ => none, fun _ => none⟩ "t4" 5
      1000).manually_paused 5 = some true ∧
    (control_litter_box_pause ⟨fun _ => none, fun _ => none⟩ "t4" 5
      1000).manual_pause_end 5 = some (some (1000 + 660)) ∧
    check_manual_pause_expiration
      (control_litter_box_pause ⟨fun _ => none, fun _ => none⟩ "t4" 5 1000) 5
      (1000 + 659) =
      some (control_litter_box_pause ⟨fun _ => none, fun _ => none⟩ "t4" 5
        1000) ∧
    ∃ st2, check_manual_pause_expiration
        (control_litter_box_pause ⟨fun _ => none, fun _ => none⟩ "t4" 5 1000)
        5 (1000 + 661) = some st2 ∧
      st2.manually_paused 5 = some false ∧
      st2.manual_pause_end 5 = some none :=
  C7_manual_pause_window ⟨fun _ => none, fun _ => none⟩ "t4" 5 1000
    (Or.inr rfl)

/-- **C8**: with a relay available, a light-brightness command while the
lamp ring switch is 0, and a pause command while the fountain is already
paused (`powerStatus = 0`), each fail immediately with an error and issue no
network call at all: no connect, poll, send-frame or disconnect post. -/
theorem C8_precondition_no_network (wf : WFData) (command : W5Command)
    (s : Nat) (connStates pollResults : Nat → Int)
    (hr : wf.group_relay = true) :
    (command ∈ W5_LIGHT_BRIGHTNESS → wf.settings.lampRingSwitch = 0 →
      control_water_fountain wf command s connStates pollResults =
        ⟨[], s, some CtrlError.petkitError⟩) ∧
    (command = W5Command.PAUSE → wf.powerStatus = 0 →
      control_water_fountain wf command s connStates pollResults =
        ⟨[], s, some CtrlError.petkitError⟩) := by
  constructor
  · intro hb hl
    have hnp : command ≠ W5Command.PAUSE := by
      rintro rfl
      simp [W5_LIGHT_BRIGHTNESS] at hb
    simp [control_water_fountain, hr, hnp, hb, hl]
  · rintro rfl hp
    simp [control_water_fountain, hr, hp]

/-- Witness for C8: a Medium-brightness command while the lamp ring switch
is 0 raises immediately with no network call. -/
theorem C8_precondition_no_network_witness :
    control_water_fountain ⟨true, 1, 1, ⟨10, 20, 0, 1, 1280, 2560, 0, 0, 0⟩⟩
        W5Command.LIGHT_MEDIUM 0 (fun _ => 1) (fun _ => 0) =
      ⟨[], 0, some CtrlError.petkitError⟩ :=
  (C8_precondition_no_network _ _ _ _ _ rfl).1 (by decide) rfl

/-- The RFC 4648 base64 alphabet used by Python's `base64.b64encode`. -/
def b64_alphabet : List Char :=
  "ABCDEFGHIJKLMNOPQRSTUVWXYZabcdefghijklmnopqrstuvwxyz0123456789+/".toList

/-- The alphabet character of a sextet value. -/
def sextet_to_char (n : Nat) : Char := b64_alphabet.getD n 'A'

/-- The sextet value of an alphabet character, `none` for characters outside
the alphabet. -/
def char_to_sextet (c : Char) : Option Nat := b64_alphabet.indexOf? c

/-- Python's `base64.b64encode` on a byte list (external library behaviour,
embedded as the standard RFC 4648 algorithm with `=` padding): every group
of three bytes becomes four sextet characters, a trailing single byte or
byte pair becomes two or three sextet characters plus padding. -/
def b64encode : List Nat → List Char
  | [] => []
  | [b0] => [sextet_to_char (b0 / 4), sextet_to_char (b0 % 4 * 16), '=', '=']
  | [b0, b1] => [sextet_to_char (b0 / 4),
      sextet_to_char (b0 % 4 * 16 + b1 / 16), sextet_to_char (b1 % 16 * 4),
      '=']
  | b0 :: b1 :: b2 :: rest =>
      sextet_to_char (b0 / 4) :: sextet_to_char (b0 % 4 * 16 + b1 / 16) ::
      sextet_to_char (b1 % 16 * 4 + b2 / 64) :: sextet_to_char (b2 % 64) ::
      b64encode rest

/-- Modelled from the spec: the base64-decoding half of
`decode_frame_string` (not present under `src/`), standard RFC 4648
decoding with strict `=` padding. -/
def b64decode : List Char → Option (List Nat)
  | [] => some []
  | s0 :: s1 :: s2 :: s3 :: rest =>
    match char_to_sextet s0, char_to_sextet s1 with
    | some v0, some v1 =>
      if s2 = '=' then
        if s3 = '=' ∧ rest = [] then some [v0 * 4 + v1 / 16] else none
      else
        match char_to_sextet s2 with
        | some v2 =>
          if s3 = '=' then
            if rest = [] then some [v0 * 4 + v1 / 16, v1 % 16 * 16 + v2 / 4]
            else none
          else
            match char_to_sextet s3 with
            | some v3 =>
              (b64decode rest).map (fun tl =>
                (v0 * 4 + v1 / 16) :: (v1 % 16 * 16 + v2 / 4) ::
                (v2 % 4 * 64 + v3) :: tl)
            | none => none
        | none => none
    | _, _ => none
  | _ => none

/-- The characters `urllib.parse.quote` never escapes (its `_ALWAYS_SAFE`
set): ASCII letters, digits and `_.-~`. -/
def ALWAYS_SAFE : List Char :=
  "ABCDEFGHIJKLMNOPQRSTUVWXYZabcdefghijklmnopqrstuvwxyz0123456789_.-~".toList

/-- The extra safe characters of the source's
`urlencode.quote(b64_encoded, 'utf-8')` call (`petkit_client.py:856`): the
second positional argument of `quote` is `safe`, so the characters of the
literal string `'utf-8'` are marked safe. -/
def QUOTE_SAFE : List Char := "utf-8".toList

/-- Uppercase hex digit of a nibble. -/
def hex_digit (n : Nat) : Char := "0123456789ABCDEF".toList.getD n '0'

/-- Value of an uppercase hex digit. -/
def hex_val (c : Char) : Option Nat := "0123456789ABCDEF".toList.indexOf? c

/-- `urllib.parse.quote` on an ASCII character stream: safe characters pass
through, every other character's byte is escaped as `%XX` in uppercase
hex. -/
def quote (safe : List Char) (s : List Char) : List Char :=
  s.flatMap (fun c =>
    if c ∈ ALWAYS_SAFE ∨ c ∈ safe then [c]
    else ['%', hex_digit (c.toNat / 16), hex_digit (c.toNat % 16)])

/-- Modelled from the spec: the percent-decoding half of
`decode_frame_string` (not present under `src/`): parses `%XX` escapes and
passes other characters through. -/
def unquote : List Char → Option (List Char)
  | [] => some []
  | c :: rest =>
    if c = '%' then
      match rest with
      | h1 :: h2 :: rest2 =>
        match hex_val h1, hex_val h2 with
        | some v1, some v2 =>
          (unquote rest2).map (fun tl => Char.ofNat (v1 * 16 + v2) :: tl)
        | _, _ => none
      | _ => none
    else (unquote rest).map (fun tl => c :: tl)

/-- The transport wrapping of `create_ble_data`
(`petkit_client.py:854-857`): base64-encode the byte array, then
percent-encode the result with safe characters `'utf-8'`. -/
def encode_frame_string (frame_bytes : List Nat) : List Char :=
  quote QUOTE_SAFE (b64encode frame_bytes)

/-- Modelled from the spec: `decode_frame_string` — percent-decoding
followed by base64-decoding. -/
def decode_frame_string (s : List Char) : Option (List Nat) :=
  (unquote s).bind b64decode

/-- The alphabet lookup inverts the alphabet index for every sextet. -/
theorem char_to_sextet_left_inverse :
    ∀ n < 64, char_to_sextet (sextet_to_char n) = some n := by decide

/-- No sextet encodes to the padding character. -/
theorem sextet_to_char_ne_pad : ∀ n < 64, sextet_to_char n ≠ '=' := by decide

/-- The base64 alphabet has 64 characters. -/
theorem b64_alphabet_length : b64_alphabet.length = 64 := by decide

/-- Sextet characters are single-byte (ASCII) characters. -/
theorem sextet_to_char_toNat_lt (n : Nat) : (sextet_to_char n).toNat < 256 := by
  rcases lt_or_ge n 64 with h | h
  · revert n
    decide
  · have hd : b64_alphabet.getD n 'A' = 'A' := by
      apply List.getD_eq_default
      rw [b64_alphabet_length]
      omega
    unfold sextet_to_char
    rw [hd]
    decide

/-- Every character produced by the base64 encoder is a single-byte
character. -/
theorem b64encode_chars_lt : ∀ (l : List Nat), ∀ c ∈ b64encode l, c.toNat < 256
  | [], c, hc => by simp [b64encode] at hc
  | [b0], c, hc => by
      simp only [b64encode, List.mem_cons, List.not_mem_nil, or_false] at hc
      rcases hc with rfl | rfl | rfl | rfl
      · exact sextet_to_char_toNat_lt _
      · exact sextet_to_char_toNat_lt _
      · decide
      · decide
  | [b0, b1], c, hc => by
      simp only [b64encode, List.mem_cons, List.not_mem_nil, or_false] at hc
      rcases hc with rfl | rfl | rfl | rfl
      · exact sextet_to_char_toNat_lt _
      · exact sextet_to_char_toNat_lt _
      · exact sextet_to_char_toNat_lt _
      · decide
  | b0 :: b1 :: b2 :: rest, c, hc => by
      simp only [b64encode, List.mem_cons] at hc
      rcases hc with rfl | rfl | rfl | rfl | h
      · exact sextet_to_char_toNat_lt _
      · exact sextet_to_char_toNat_lt _
      · exact sextet_to_char_toNat_lt _
      · exact sextet_to_char_toNat_lt _
      · exact b64encode_chars_lt rest c h

/-- Base64 decoding inverts base64 encoding on byte lists. -/
theorem b64_roundtrip : ∀ (l : List Nat), (∀ x ∈ l, x < 256) →
    b64decode (b64encode l) = some l
  | [], _ => rfl
  | [b0], h => by
      have hb0 : b0 < 256 := h b0 (by simp)
      have h0 := char_to_sextet_left_inverse (b0 / 4) (by omega)
      have h1 := char_to_sextet_left_inverse (b0 % 4 * 16) (by omega)
      have e0 : b0 / 4 * 4 + b0 % 4 * 16 / 16 = b0 := by omega
      simp [b64encode, b64decode, h0, h1]
      omega
  | [b0, b1], h => by
      have hb0 : b0 < 256 := h b0 (by simp)
      have hb1 : b1 < 256 := h b1 (by simp)
      have h0 := char_to_sextet_left_inverse (b0 / 4) (by omega)
      have h1 := char_to_sextet_left_inverse (b0 % 4 * 16 + b1 / 16) (by omega)
      have h2 := char_to_sextet_left_inverse (b1 % 16 * 4) (by omega)
      have hne2 := sextet_to_char_ne_pad (b1 % 16 * 4) (by omega)
      have e0 : b0 / 4 * 4 + (b0 % 4 * 16 + b1 / 16) / 16 = b0 := by omega
      have e1 : (b0 % 4 * 16 + b1 / 16) % 16 * 16 + b1 % 16 * 4 / 4 = b1 := by
        omega
      simp [b64encode, b64decode, h0, h1, h2, hne2]
      omega
  | b0 :: b1 :: b2 :: rest, h => by
      have hb0 : b0 < 256 := h b0 (by simp)
      have hb1 : b1 < 256 := h b1 (by simp)
      have hb2 : b2 < 256 := h b2 (by simp)
      have ih := b64_roundtrip rest (fun x hx => h x (by simp [hx]))
      have h0 := char_to_sextet_left_inverse (b0 / 4) (by omega)
      have h1 := char_to_sextet_left_inverse (b0 % 4 * 16 + b1 / 16) (by omega)
      have h2 := char_to_sextet_left_inverse (b1 % 16 * 4 + b2 / 64) (by omega)
      have h3 := char_to_sextet_left_inverse (b2 % 64) (by omega)
      have hne2 := sextet_to_char_ne_pad (b1 % 16 * 4 + b2 / 64) (by omega)
      have hne3 := sextet_to_char_ne_pad (b2 % 64) (by omega)
      have e0 : b0 / 4 * 4 + (b0 % 4 * 16 + b1 / 16) / 16 = b0 := by omega
      have e1 : (b0 % 4 * 16 + b1 / 16) % 16 * 16 +
          (b1 % 16 * 4 + b2 / 64) / 4 = b1 := by omega
      have e2 : (b1 % 16 * 4 + b2 / 64) % 4 * 64 + b2 % 64 = b2 := by omega
      simp [b64encode, b64decode, h0, h1, h2, h3, hne2, hne3, ih]
      omega

/-- No safe character is the escape character `%`. -/
theorem quote_safe_ne_percent :
    ∀ c : Char, c ∈ ALWAYS_SAFE ∨ c ∈ QUOTE_SAFE → c ≠ '%' := by
  intro c hc heq
  subst heq
  rcases hc with hc | hc <;> revert hc <;> decide

/-- The hex-digit table inverts for every nibble. -/
theorem hex_val_left_inverse : ∀ n < 16, hex_val (hex_digit n) = some n := by
  decide

/-- Unfolding `quote` one character at a time. -/
theorem quote_cons (safe : List Char) (c : Char) (s : List Char) :
    quote safe (c :: s) =
      (if c ∈ ALWAYS_SAFE ∨ c ∈ safe then [c]
       else ['%', hex_digit (c.toNat / 16), hex_digit (c.toNat % 16)]) ++
        quote safe s := by
  simp [quote]

/-- A non-escape character passes through `unquote` uniformly, whatever the
tail looks like. -/
theorem unquote_cons_not_percent (c : Char) (rest : List Char) (h : c ≠ '%') :
    unquote (c :: rest) = (unquote rest).map (fun tl => c :: tl) := by
  cases rest with
  | nil => simp [unquote, h]
  | cons a tail =>
    cases tail with
    | nil => simp [unquote, h]
    | cons b tail2 => simp [unquote, h]

/-- Percent-decoding inverts percent-encoding with the source's safe set on
single-byte character streams. -/
theorem unquote_quote : ∀ (s : List Char), (∀ c ∈ s, c.toNat < 256) →
    unquote (quote QUOTE_SAFE s) = some s
  | [], _ => rfl
  | c :: s, h => by
      have hc : c.toNat < 256 := h c (by simp)
      have ih := unquote_quote s (fun x hx => h x (by simp [hx]))
      rw [quote_cons]
      by_cases hsafe : c ∈ ALWAYS_SAFE ∨ c ∈ QUOTE_SAFE
      · have hnp : c ≠ '%' := quote_safe_ne_percent c hsafe
        rw [if_pos hsafe]
        simp [unquote_cons_not_percent c _ hnp, ih]
      · have h1 := hex_val_left_inverse (c.toNat / 16) (by omega)
        have h2 := hex_val_left_inverse (c.toNat % 16) (by omega)
        have ec : c.toNat / 16 * 16 + c.toNat % 16 = c.toNat := by omega
        rw [if_neg hsafe]
        simp [unquote, h1, h2, ih, ec, Char.ofNat_toNat]

/-- **C10**: the transport encoding is exactly reversible — percent-decoding
followed by base64-decoding of `encode_frame_string b` recovers the
identical byte sequence `b`, for every byte sequence. -/
theorem C10_transport_roundtrip (b : List Nat) (h : ∀ x ∈ b, x < 256) :
    decode_frame_string (encode_frame_string b) = some b := by
  unfold decode_frame_string encode_frame_string
  rw [unquote_quote (b64encode b) (b64encode_chars_lt b)]
  simpa using b64_roundtrip b h

/-- Witness for C10: the folded first-handshake frame bytes
`[250, 252, 253, 215, 1, 1, 0, 0, 251]` survive the transport
round-trip. -/
theorem C10_transport_roundtrip_witness :
    decode_frame_string
        (encode_frame_string [250, 252, 253, 215, 1, 1, 0, 0, 251]) =
      some [250, 252, 253, 215, 1, 1, 0, 0, 251] :=
  C10_transport_roundtrip [250, 252, 253, 215, 1, 1, 0, 0, 251] (by decide)
